import Mathlib

/-!
Verification of the SONiC Accton platform shims (as9736-64d `fan.py`,
`fanutil.py` and as7926-40xfb `thermal.py`) against their specification.

The Python classes are shallowly embedded: each method becomes a Lean
function over an explicit environment recording the (already read) contents
of the sysfs files it touches.  A file content is an `Option String`
(`none` = the file is unreadable) or, where only the parsed integer matters,
an `Option Int` (`none` = unreadable or empty, i.e. the read helper returned
`None`).  A Python call that can raise is embedded as `PyResult`; a normal
return is `PyResult.ok`, an uncaught exception is `PyResult.exn` carrying
the exception class name.  Python `/` (true division) is modelled by exact
rational division and `int(...)` truncation by `truncQ` (truncation toward
zero), which agrees with the float computation on the value ranges the
claims quantify over.
-/

/-- Result of a Python call: normal return or uncaught exception
(identified by its class name). -/
inductive PyResult (α : Type) where
  | ok (val : α)
  | exn (name : String)
deriving DecidableEq, Repr

/-- Python `str.rstrip()`: drop trailing whitespace. -/
def rstrip (s : String) : String :=
  String.mk (s.data.reverse.dropWhile Char.isWhitespace).reverse

/-- Python `str.strip()`: drop leading and trailing whitespace. -/
def pyStrip (s : String) : String :=
  String.mk (((s.data.dropWhile Char.isWhitespace).reverse.dropWhile
    Char.isWhitespace).reverse)

/-- Value of a list of decimal digit characters, `none` if empty or a
non-digit occurs (the digit list of Python `int(s, 10)`). -/
def digitsVal? (l : List Char) : Option Nat :=
  if l = [] then none
  else l.foldl (fun acc c =>
    match acc with
    | none => none
    | some n => if c.isDigit then some (n * 10 + (c.toNat - 48)) else none)
    (some 0)

/-- Python `int(s, 10)`: strip surrounding whitespace, optional sign, then
decimal digits; `none` models the `ValueError` raise.  (Underscore digit
separators are not modelled; no sysfs file uses them.) -/
def pyInt? (s : String) : Option Int :=
  match (pyStrip s).data with
  | '+' :: rest => (digitsVal? rest).map Int.ofNat
  | '-' :: rest => (digitsVal? rest).map fun n => -(n : Int)
  | l => (digitsVal? l).map Int.ofNat

/-- Truncation toward zero on ℚ, the behaviour of Python `int(float)`. -/
def truncQ (q : ℚ) : Int :=
  if 0 ≤ q then ⌊q⌋ else -⌊-q⌋

/-! ## fan.py: static tables -/

/-- `FAN_NAME_LIST` of fan.py. -/
def FAN_NAME_LIST : List String :=
  ["FAN-1F", "FAN-1R", "FAN-2F", "FAN-2R",
   "FAN-3F", "FAN-3R", "FAN-4F", "FAN-4R"]

/-- `FAN_TARGET_SPEED_TABLE` of fan.py as an association list:
duty-cycle percentage to `target_speed` RPM. -/
def FAN_TARGET_SPEED_TABLE : List (Int × Int) :=
  [(0, 0), (5, 680), (10, 1360), (15, 2040), (20, 2720), (25, 3400),
   (30, 4080), (35, 4760), (40, 5440), (45, 6120), (50, 6800), (55, 7480),
   (60, 8160), (65, 8840), (70, 9520), (75, 10200), (80, 10880),
   (85, 11560), (90, 12240), (95, 12920), (100, 13600)]

/-- Python `dict[key]` over an association list; `none` models the
`KeyError` raise on a missing key. -/
def lookupTable : List (Int × Int) → Int → Option Int
  | [], _ => none
  | (k, v) :: rest, t => if t = k then some v else lookupTable rest t

/-- `FAN_TARGET_SPEED_TABLE[t]["target_speed"]`. -/
def fanTargetSpeedTable (t : Int) : Option Int :=
  lookupTable FAN_TARGET_SPEED_TABLE t

/-! ## fan.py: Fan methods

The environment holds the parsed integer content of each sysfs file a
`Fan` instance touches: `none` is a file whose read helper returned
`None` (unreadable, or empty first line). -/

/-- Sysfs inputs of one `Fan` instance (contents already read and parsed). -/
structure FanEnv where
  /-- `fan{tray+1}_present` content. -/
  tray_present : Option Int
  /-- `psu_present` content (PSU CPLD path). -/
  psu_present : Option Int
  /-- `psu_fan1_speed_rpm` content. -/
  psu_rpm : Option Int
  /-- `fan{tray+1}_duty_cycle_percentage` content. -/
  duty : Option Int
  /-- `fan{N}_input` content (front N = tray+1, rear N = tray+11). -/
  fan_input : Option Int
  /-- whether `/tmp/fan_target_speed` exists. -/
  marker_exists : Bool
  /-- `/tmp/fan_target_speed` content. -/
  marker : Option Int
  /-- `APIHelper.is_host()`. -/
  is_host : Bool
deriving Repr

/-- `Fan.get_presence`: the tray `fanN_present` file decides a non-PSU fan,
the PSU CPLD `psu_present` file decides a PSU fan; the integer 1 means
present, any other integer or an unreadable file means absent. -/
def fan_get_presence (is_psu_fan : Bool) (e : FanEnv) : Bool :=
  if ¬is_psu_fan then
    match e.tray_present with
    | some v => decide (v = 1)
    | none => false
  else
    match e.psu_present with
    | some v => decide (v = 1)
    | none => false

/-- `Fan.get_speed`: PSU fans scale `psu_fan1_speed_rpm` by 100/26688;
non-PSU present fans multiply the duty-cycle percentage by measured RPM
over the table target RPM; absent fans report the initial `speed = 0`. -/
def fan_get_speed (is_psu_fan : Bool) (e : FanEnv) : PyResult Int :=
  if is_psu_fan then
    match e.psu_rpm with
    | some r =>
      let s : ℚ := (r : ℚ) * 100 / 26688
      let s := if s > 100 then 100 else s
      .ok (truncQ (if s > 100 then (100 : ℚ) else s))
    | none => .ok 0
  else if fan_get_presence false e then
    match e.duty, e.fan_input with
    | some t, some i =>
      match fanTargetSpeedTable t with
      | none => .exn "KeyError"
      | some ts =>
        if ts = 0 ∨ i = 0 then .ok 0
        else
          let s : ℚ := (t : ℚ) * ((i : ℚ) / (ts : ℚ))
          let s := if s > 100 then 100 else s
          .ok (truncQ s)
    | _, _ => .ok 0
  else
    .ok (truncQ 0)

/-- `Fan.get_target_speed`: PSU fans delegate to `get_speed`; present
non-PSU fans read the marker file (in a container, when it exists) or the
duty-cycle file; when absent, the final `return int(speed)` reads the
never-assigned local `speed` and raises `UnboundLocalError`. -/
def fan_get_target_speed (is_psu_fan : Bool) (e : FanEnv) : PyResult Int :=
  if is_psu_fan then
    fan_get_speed true e
  else if fan_get_presence false e then
    match (if e.marker_exists && !e.is_host then e.marker else e.duty) with
    | none => .ok 0
    | some v => .ok v
  else
    .exn "UnboundLocalError"

/-- `Fan.get_name`: static table entry for non-PSU fans (`none` models the
`IndexError` on an out-of-range index), formatted string for PSU fans. -/
def fan_get_name (fan_tray_index fan_index : Nat) (is_psu_fan : Bool)
    (psu_index : Nat) : Option String :=
  if ¬is_psu_fan then
    FAN_NAME_LIST.get? (fan_tray_index * 2 + fan_index)
  else
    some ("PSU-" ++ toString (psu_index + 1) ++ " FAN-" ++ toString (fan_index + 1))

/-- `Fan.get_position_in_parent`. -/
def fan_get_position_in_parent (fan_index : Nat) (is_psu_fan : Bool)
    (psu_index : Nat) : Nat :=
  if ¬is_psu_fan then fan_index + 1 else psu_index + 1

/-! ## fanutil.py: FanUtil

`FanUtil` addresses the four fan trays by `(fan_num, node_num)` pairs,
`fan_num` in 1..4 and `node_num` in 1..5 (fault, duty, front speed, rear
speed, present).  The file system is an environment mapping each pair to
the raw first line of the corresponding sysfs file (`none` = the `open`
raises `IOError`), plus a write-permission predicate for the write path. -/

/-- Readable contents of the fanutil sysfs nodes: `none` = `IOError` on
`open`, `some raw` = `readline()` returned `raw`. -/
def FanUtilEnv : Type := Int × Int → Option String

/-- `FanUtil.FAN_NODE_FAULT_IDX_OF_MAP`. -/
def FAN_NODE_FAULT_IDX_OF_MAP : Int := 1
/-- `FanUtil.FAN_NODE_DUTY_IDX_OF_MAP`. -/
def FAN_NODE_DUTY_IDX_OF_MAP : Int := 2
/-- `FanUtil.FAN_NODE_FRONT_SPD_OF_MAP`. -/
def FAN_NODE_FRONT_SPD_OF_MAP : Int := 3
/-- `FanUtil.FAN_NODE_REAR_SPD_OF_MAP`. -/
def FAN_NODE_REAR_SPD_OF_MAP : Int := 4
/-- `FanUtil.FAN_NODE_PRESENT_IDX_OF_MAP`. -/
def FAN_NODE_PRESENT_IDX_OF_MAP : Int := 5

/-- `FanUtil._get_fan_node_val`: range-check `fan_num` (1..4) and
`node_num` (1..5) before any file access, then open/readline/rstrip;
unreadable file or empty stripped line give `None`; otherwise
`int(content)` (a non-integer line raises `ValueError`).  Closing a file
opened for reading does not fail, so the guarded `close()` branch that
would also return `None` is not given a failure mode here. -/
def fanutil_get_fan_node_val (env : FanUtilEnv) (fan_num node_num : Int) :
    PyResult (Option Int) :=
  if fan_num < 1 ∨ fan_num > 4 then .ok none
  else if node_num < FAN_NODE_FAULT_IDX_OF_MAP ∨ node_num > 5 then .ok none
  else
    match env (fan_num, node_num) with
    | none => .ok none
    | some raw =>
      let content := rstrip raw
      if content = "" then .ok none
      else
        match pyInt? content with
        | some v => .ok (some v)
        | none => .exn "ValueError"

/-- `FanUtil._set_fan_node_val`: the same range checks before any file
access, then open-for-write (`IOError` gives `None`), write `str(val)`,
close; returns `True` on success.  `str(val)` of an integer is never the
empty string, so the dead `content == ''` branch never fires. -/
def fanutil_set_fan_node_val (canWrite : Int × Int → Bool)
    (fan_num node_num : Int) (_val : Int) : Option Bool :=
  if fan_num < 1 ∨ fan_num > 4 then none
  else if node_num < FAN_NODE_FAULT_IDX_OF_MAP ∨ node_num > 5 then none
  else if canWrite (fan_num, node_num) then some true
  else none

/-- `FanUtil.get_fan_fault`. -/
def fanutil_get_fan_fault (env : FanUtilEnv) (fan_num : Int) :
    PyResult (Option Int) :=
  fanutil_get_fan_node_val env fan_num FAN_NODE_FAULT_IDX_OF_MAP

/-- `FanUtil.get_fan_present`. -/
def fanutil_get_fan_present (env : FanUtilEnv) (fan_num : Int) :
    PyResult (Option Int) :=
  fanutil_get_fan_node_val env fan_num FAN_NODE_PRESENT_IDX_OF_MAP

/-- `FanUtil.get_fan_front_speed`. -/
def fanutil_get_fan_front_speed (env : FanUtilEnv) (fan_num : Int) :
    PyResult (Option Int) :=
  fanutil_get_fan_node_val env fan_num FAN_NODE_FRONT_SPD_OF_MAP

/-- `FanUtil.get_fan_rear_speed`. -/
def fanutil_get_fan_rear_speed (env : FanUtilEnv) (fan_num : Int) :
    PyResult (Option Int) :=
  fanutil_get_fan_node_val env fan_num FAN_NODE_REAR_SPD_OF_MAP

/-- `FanUtil.get_fan_status`: `None` for an out-of-range `fan_num`,
`False` when the fault node reads a positive integer, `True` otherwise. -/
def fanutil_get_fan_status (env : FanUtilEnv) (fan_num : Int) :
    PyResult (Option Bool) :=
  if fan_num < 1 ∨ fan_num > 4 then .ok none
  else
    match fanutil_get_fan_fault env fan_num with
    | .exn e => .exn e
    | .ok f =>
      match f with
      | some v => if v > 0 then .ok (some false) else .ok (some true)
      | none => .ok (some true)

/-- `FanUtil.get_fan_duty_cycle`: reads fan1's duty-cycle node; an
unreadable file returns `False` (`Sum.inr false`), otherwise the rstripped
first line goes straight to `int(content)` with no emptiness check, so an
empty or non-integer line raises `ValueError`. -/
def fanutil_get_fan_duty_cycle (file : Option String) :
    PyResult (Int ⊕ Bool) :=
  match file with
  | none => .ok (.inr false)
  | some raw =>
    match pyInt? (rstrip raw) with
    | some v => .ok (.inl v)
    | none => .exn "ValueError"

/-- Outcome of `FanUtil.set_fan_duty_cycle`: the returned boolean, the
fan numbers whose duty file was written (in order), and whether the
`/tmp/fan_target_speed` marker was updated. -/
structure SetDutyResult where
  ret : Bool
  fansWritten : List Int
  markerUpdated : Bool
deriving DecidableEq, Repr

/-- The `for fan_num in range(1, 5)` loop of `set_fan_duty_cycle`: write
each fan's duty file in turn, aborting with `False` at the first file
that fails to open (fans already written stay written). -/
def setFanDutyLoop (canWrite : Int → Bool) : List Int → List Int →
    Bool × List Int
  | [], written => (true, written)
  | f :: rest, written =>
    if canWrite f then setFanDutyLoop canWrite rest (written ++ [f])
    else (false, written)

/-- `FanUtil.set_fan_duty_cycle`: run the per-fan loop over fans 1..4;
only after every write succeeded are the host marker file and the pmon
container marker updated and `True` returned.  The marker update uses
`APIHelper.write_txt_file` (which swallows `IOError`) and a
`subprocess.getstatusoutput` whose status is discarded, so the marker
step itself never changes the returned value. -/
def fanutil_set_fan_duty_cycle (canWrite : Int → Bool) (_val : Int) :
    SetDutyResult :=
  match setFanDutyLoop canWrite [1, 2, 3, 4] [] with
  | (true, written) => ⟨true, written, true⟩
  | (false, written) => ⟨false, written, false⟩

/-! ## thermal.py: static tables and parsing -/

/-- `THERMAL_NAME_LIST` of thermal.py. -/
def THERMAL_NAME_LIST : List String :=
  ["Temp sensor 1", "Temp sensor 2", "Temp sensor 3",
   "Temp sensor 4", "Temp sensor 5", "Temp sensor 6",
   "Temp sensor 7", "Temp sensor 8", "Temp sensor 9",
   "Temp sensor 10", "CPU Package Temp",
   "CPU Core 0 Temp", "CPU Core 1 Temp", "CPU Core 2 Temp",
   "CPU Core 3 Temp", "CPU Core 4 Temp", "CPU Core 5 Temp",
   "CPU Core 6 Temp", "CPU Core 7 Temp"]

/-- `PSU_THERMAL_NAME_LIST` of thermal.py. -/
def PSU_THERMAL_NAME_LIST : List String :=
  ["PSU-1 temp sensor 1", "PSU-2 temp sensor 1"]

/-- Value of a possibly empty list of decimal digit characters. -/
def digitsVal (l : List Char) : Nat :=
  l.foldl (fun n c => n * 10 + (c.toNat - 48)) 0

/-- Unsigned part of the Python `float(s)` grammar restricted to plain
decimals: digits, optionally followed by a dot and more digits, at least
one digit in total (exponents, `inf`, `nan` are not modelled; every value
these files and tables hold is a plain decimal). -/
def decimalVal? (l : List Char) : Option ℚ :=
  let intPart := l.takeWhile Char.isDigit
  match l.dropWhile Char.isDigit with
  | [] =>
    if intPart = [] then none else some ((digitsVal intPart : ℚ))
  | '.' :: frac =>
    if frac.all Char.isDigit ∧ (intPart ≠ [] ∨ frac ≠ []) then
      some ((digitsVal intPart : ℚ) + (digitsVal frac : ℚ) / 10 ^ frac.length)
    else none
  | _ => none

/-- Python `float(s)` on plain decimal strings: strip surrounding
whitespace, optional sign, then `decimalVal?`; `none` models the
`ValueError` raise. -/
def pyFloat? (s : String) : Option ℚ :=
  match (pyStrip s).data with
  | '+' :: rest => decimalVal? rest
  | '-' :: rest => (decimalVal? rest).map fun q => -q
  | l => decimalVal? l

/-- `Thermal.__read_txt_file`: iterate over the glob matches of the path
(the list holds one entry per match, `none` = `open` raised `IOError`),
return the stripped first line of the first match that yields a non-empty
one, else `None`. -/
def read_txt_file : List (Option String) → Option String
  | [] => none
  | f :: rest =>
    match f with
    | none => read_txt_file rest
    | some raw =>
      let data := pyStrip raw
      if data.length > 0 then some data else read_txt_file rest

/-! ## thermal.py: Thermal methods -/

/-- Constructor arguments of a `Thermal` (`thermal_index`, `is_psu`,
`psu_index`); the indices are the non-negative values the platform
chassis constructs. -/
structure ThermalInst where
  index : Nat
  is_psu : Bool
  psu_index : Nat
deriving DecidableEq, Repr

/-- `self.is_cpu`, set in `__init__` exactly when
`self.index in range(10, 19)`. -/
def ThermalInst.is_cpu (t : ThermalInst) : Bool :=
  decide (10 ≤ t.index ∧ t.index ≤ 18)

/-- Readable sysfs contents a `Thermal` instance touches: each field is
the glob-match list consumed by `__read_txt_file`. -/
structure ThermalEnv where
  /-- matches of `psu{psu_index+1}_present`. -/
  psu_present_files : List (Option String)
  /-- matches of `temp{ss_index}_input` under the instance's hwmon path. -/
  temp_input_files : List (Option String)

/-- `Thermal.get_name`: static table entry selected by the constructor
index (`none` models the `IndexError` on an out-of-range index). -/
def thermal_get_name (t : ThermalInst) : Option String :=
  if t.is_psu then PSU_THERMAL_NAME_LIST.get? t.psu_index
  else THERMAL_NAME_LIST.get? t.index

/-- `Thermal.get_position_in_parent`. -/
def thermal_get_position_in_parent (t : ThermalInst) : Nat :=
  t.index + 1

/-- `Thermal.get_presence`: CPU sensors are unconditionally present; PSU
sensors parse the `psuN_present` file with `int(val, 10)` — but `val` is
the raw return of `__read_txt_file`, so an unreadable file gives
`int(None, 10)`, a `TypeError`; other sensors are present iff the temp
input file read returns non-`None`. -/
def thermal_get_presence (t : ThermalInst) (e : ThermalEnv) : PyResult Bool :=
  if t.is_cpu then .ok true
  else if t.is_psu then
    match read_txt_file e.psu_present_files with
    | none => .exn "TypeError"
    | some s =>
      match pyInt? s with
      | some v => .ok (decide (v = 1))
      | none => .exn "ValueError"
  else
    .ok (read_txt_file e.temp_input_files).isSome

/-- `Thermal.get_status`: CPU sensors are unconditionally OK; PSU sensors
delegate to `get_presence`; other sensors are OK iff the temp input file
reads a non-zero integer. -/
def thermal_get_status (t : ThermalInst) (e : ThermalEnv) : PyResult Bool :=
  if t.is_cpu then .ok true
  else if t.is_psu then thermal_get_presence t e
  else
    match read_txt_file e.temp_input_files with
    | none => .ok false
    | some s =>
      match pyInt? s with
      | some v => .ok (decide (v ≠ 0))
      | none => .exn "ValueError"

/-- `Thermal.get_temperature` via `__get_temp`: `float(raw)/1000` when the
temp input file reads a value, `0` when the read returns `None`. -/
def thermal_get_temperature (e : ThermalEnv) : PyResult ℚ :=
  match read_txt_file e.temp_input_files with
  | some raw =>
    match pyFloat? raw with
    | some q => .ok (q / 1000)
    | none => .exn "ValueError"
  | none => .ok 0

/-! ## thermal.py: threshold resolution

`DeviceThreshold` lives in the `helper` module, which is not part of this
excerpt; only its interface is used here. -/

/-- Modelled from the spec: `DeviceThreshold.NOT_AVAILABLE` (from the
missing `helper` module) is the distinguished marker the override lookup
returns when no parseable configured value exists; the threshold code
only compares values against it for (in)equality. -/
def NOT_AVAILABLE : String := "N/A"

/-- `self.default_threshold` built in `Thermal.__init__`: sensor name to
(high, high-critical) threshold strings; `none` models the `KeyError` on
a name outside the table. -/
def default_threshold (name : String) : Option (String × String) :=
  if name = "Temp sensor 1" then some ("84.0", "87.0")
  else if name = "Temp sensor 2" then some ("110.0", "115.0")
  else if name = "Temp sensor 3" then some ("110.0", "115.0")
  else if name = "Temp sensor 4" then some ("70.0", "73.0")
  else if name = "Temp sensor 5" then some ("72.0", "75.0")
  else if name = "Temp sensor 6" then some ("73.0", "76.0")
  else if name = "Temp sensor 7" then some ("70.0", "73.0")
  else if name = "Temp sensor 8" then some ("62.0", "65.0")
  else if name = "Temp sensor 9" then some ("84.0", "87.0")
  else if name = "Temp sensor 10" then some ("76.0", "79.0")
  else if name = "CPU Package Temp" then some ("82.0", "104.0")
  else if name = "CPU Core 0 Temp" then some ("82.0", "104.0")
  else if name = "CPU Core 1 Temp" then some ("82.0", "104.0")
  else if name = "CPU Core 2 Temp" then some ("82.0", "104.0")
  else if name = "CPU Core 3 Temp" then some ("82.0", "104.0")
  else if name = "CPU Core 4 Temp" then some ("82.0", "104.0")
  else if name = "CPU Core 5 Temp" then some ("82.0", "104.0")
  else if name = "CPU Core 6 Temp" then some ("82.0", "104.0")
  else if name = "CPU Core 7 Temp" then some ("82.0", "104.0")
  else if name = "PSU-1 temp sensor 1" then some ("62.0", "67.0")
  else if name = "PSU-2 temp sensor 1" then some ("62.0", "67.0")
  else none

/-- Outcome of a threshold getter: a float value, a `ValueError` from
`float(...)`, a `NotImplementedError`, or a `KeyError` from the default
table lookup. -/
inductive ThresholdResult where
  | value (q : ℚ)
  | valueError
  | notImplemented
  | keyError
deriving DecidableEq, Repr

/-- Shared body of the two threshold getters: return `float(override)`
when the override differs from `NOT_AVAILABLE`, else `float(default)`
when the table default (selected by `field`) differs from
`NOT_AVAILABLE`, else raise `NotImplementedError`.  `override` stands for
`self.conf.get_high_threshold()` / `get_high_critical_threshold()` —
modelled from the spec: the missing `DeviceThreshold` yields the
configured override string when one is present and parseable, and
`NOT_AVAILABLE` otherwise. -/
def resolve_threshold (name override : String)
    (field : String × String → String) : ThresholdResult :=
  if override ≠ NOT_AVAILABLE then
    match pyFloat? override with
    | some q => .value q
    | none => .valueError
  else
    match default_threshold name with
    | none => .keyError
    | some defaults =>
      let d := field defaults
      if d ≠ NOT_AVAILABLE then
        match pyFloat? d with
        | some q => .value q
        | none => .valueError
      else .notImplemented

/-- `Thermal.get_high_threshold`. -/
def thermal_get_high_threshold (name override : String) : ThresholdResult :=
  resolve_threshold name override Prod.fst

/-- `Thermal.get_high_critical_threshold`. -/
def thermal_get_high_critical_threshold (name override : String) :
    ThresholdResult :=
  resolve_threshold name override Prod.snd

/-! ## Helper lemmas -/

/-- A successful association-list lookup returns a key/value pair of the
list. -/
theorem lookupTable_mem {l : List (Int × Int)} {t ts : Int}
    (h : lookupTable l t = some ts) : (t, ts) ∈ l := by
  induction l with
  | nil => simp [lookupTable] at h
  | cons p rest ih =>
    obtain ⟨k, v⟩ := p
    by_cases hk : t = k
    · simp only [lookupTable, if_pos hk, Option.some.injEq] at h
      subst hk
      subst h
      exact List.mem_cons_self _ _
    · simp only [lookupTable, if_neg hk] at h
      exact List.mem_cons_of_mem _ (ih h)

/-- Every key of `FAN_TARGET_SPEED_TABLE` and its target RPM are
non-negative. -/
theorem fanTargetSpeedTable_nonneg {t ts : Int}
    (h : fanTargetSpeedTable t = some ts) : 0 ≤ t ∧ 0 ≤ ts := by
  have hall : ∀ p ∈ FAN_TARGET_SPEED_TABLE, 0 ≤ p.1 ∧ 0 ≤ p.2 := by decide
  exact hall _ (lookupTable_mem h)

/-- Truncation toward zero agrees with the floor on non-negative
rationals. -/
theorem truncQ_of_nonneg {q : ℚ} (h : 0 ≤ q) : truncQ q = ⌊q⌋ := by
  simp [truncQ, h]

/-- Truncating 100 gives 100. -/
theorem truncQ_hundred : truncQ (100 : ℚ) = 100 := by
  norm_num [truncQ]

/-- Clamping the truncation of a rational above 100 gives 100. -/
theorem max_min_truncQ_of_gt {q : ℚ} (hq : 0 ≤ q) (h : 100 < q) :
    max 0 (min 100 (truncQ q)) = 100 := by
  rw [truncQ_of_nonneg hq]
  have h2 : (100 : ℤ) ≤ ⌊q⌋ := by
    rw [Int.le_floor]
    push_cast
    exact h.le
  rw [min_eq_left h2]
  norm_num

/-- Clamping the truncation of a rational in [0, 100] changes nothing. -/
theorem max_min_truncQ_of_le {q : ℚ} (hq : 0 ≤ q) (h : q ≤ 100) :
    max 0 (min 100 (truncQ q)) = truncQ q := by
  rw [truncQ_of_nonneg hq]
  have h1 : ⌊q⌋ ≤ 100 := by
    calc ⌊q⌋ ≤ ⌊(100 : ℚ)⌋ := Int.floor_le_floor h
    _ = 100 := by norm_num
  rw [min_eq_right h1, max_eq_right (Int.floor_nonneg.mpr hq)]

/-! ## Claims -/

/-- C1: for a present non-PSU fan, `Fan.get_speed` returns the duty-cycle
percentage times the measured RPM over the table target RPM, truncated to
an integer and clamped to [0, 100]; it returns 0 when either file read
fails, when the table target RPM is 0, or when the measured RPM is 0. -/
theorem c1_fan_get_speed (e : FanEnv) (t i ts : Int)
    (hp : e.tray_present = some 1)
    (ht : fanTargetSpeedTable t = some ts) (hnn : 0 ≤ i) :
    (e.duty = some t → e.fan_input = some i →
      fan_get_speed false e =
        .ok (if ts = 0 ∨ i = 0 then 0
             else max 0 (min 100 (truncQ ((t : ℚ) * ((i : ℚ) / (ts : ℚ)))))))
    ∧ (e.duty = none → fan_get_speed false e = .ok 0)
    ∧ (e.fan_input = none → fan_get_speed false e = .ok 0) := by
  obtain ⟨h0t, h0ts⟩ := fanTargetSpeedTable_nonneg ht
  have hqnn : 0 ≤ (t : ℚ) * ((i : ℚ) / (ts : ℚ)) :=
    mul_nonneg (by exact_mod_cast h0t)
      (div_nonneg (by exact_mod_cast hnn) (by exact_mod_cast h0ts))
  refine ⟨?_, ?_, ?_⟩
  · intro hd hi
    simp only [fan_get_speed, fan_get_presence, hp, hd, hi, ht]
    norm_num
    split_ifs with hz hgt
    · rfl
    · rw [max_min_truncQ_of_gt hqnn hgt, truncQ_hundred]
    · rw [max_min_truncQ_of_le hqnn (not_lt.mp hgt)]
  · intro hd
    simp [fan_get_speed, fan_get_presence, hp, hd]
  · intro hi
    rcases hv : e.duty with _ | v <;>
      simp [fan_get_speed, fan_get_presence, hp, hi, hv]

/-- C1 witness: duty 50%, measured 3400 RPM, table target 6800 RPM gives
speed 25. -/
theorem c1_fan_get_speed_witness :
    fan_get_speed false ⟨some 1, none, none, some 50, some 3400, false, none, false⟩ =
      .ok (if (6800 : ℤ) = 0 ∨ (3400 : ℤ) = 0 then 0
           else max 0 (min 100 (truncQ ((50 : ℚ) * ((3400 : ℚ) / (6800 : ℚ)))))) :=
  (c1_fan_get_speed _ 50 3400 6800 rfl (by decide) (by decide)).1 rfl rfl

/-- C2: both threshold getters resolve in priority order — the
`DeviceThreshold` override when it differs from `NOT_AVAILABLE`, else the
static per-name default when that differs from `NOT_AVAILABLE`, else
`NotImplementedError`. -/
theorem c2_threshold_priority (name override hiv critv : String) (q qhi qcrit : ℚ) :
    (override ≠ NOT_AVAILABLE → pyFloat? override = some q →
      thermal_get_high_threshold name override = .value q ∧
      thermal_get_high_critical_threshold name override = .value q)
  ∧ (override = NOT_AVAILABLE → default_threshold name = some (hiv, critv) →
      (hiv ≠ NOT_AVAILABLE → pyFloat? hiv = some qhi →
        thermal_get_high_threshold name override = .value qhi)
      ∧ (hiv = NOT_AVAILABLE →
        thermal_get_high_threshold name override = .notImplemented)
      ∧ (critv ≠ NOT_AVAILABLE → pyFloat? critv = some qcrit →
        thermal_get_high_critical_threshold name override = .value qcrit)
      ∧ (critv = NOT_AVAILABLE →
        thermal_get_high_critical_threshold name override = .notImplemented)) := by
  constructor
  · intro hov hpq
    constructor <;>
      simp [thermal_get_high_threshold, thermal_get_high_critical_threshold,
            resolve_threshold, hov, hpq]
  · intro hov hdef
    refine ⟨?_, ?_, ?_, ?_⟩
    · intro h1 h2
      simp [thermal_get_high_threshold, resolve_threshold, hov, hdef, h1, h2]
    · intro h1
      simp [thermal_get_high_threshold, resolve_threshold, hov, hdef, h1]
    · intro h1 h2
      simp [thermal_get_high_critical_threshold, resolve_threshold, hov, hdef,
            h1, h2]
    · intro h1
      simp [thermal_get_high_critical_threshold, resolve_threshold, hov, hdef,
            h1]

/-- C2 witness: with the override unavailable, "Temp sensor 1" falls back
to its table default 84.0 (high) and 87.0 (high critical). -/
theorem c2_threshold_priority_witness :
    thermal_get_high_threshold "Temp sensor 1" "N/A" = .value 84
    ∧ thermal_get_high_critical_threshold "Temp sensor 1" "N/A" = .value 87 := by
  have h := (c2_threshold_priority "Temp sensor 1" "N/A" "84.0" "87.0"
    0 84 87).2 (by decide) (by decide)
  exact ⟨h.1 (by decide) (by simp [pyFloat?, pyStrip, decimalVal?, digitsVal]),
    h.2.2.1 (by decide) (by simp [pyFloat?, pyStrip, decimalVal?, digitsVal])⟩

/-- C3: `FanUtil.set_fan_duty_cycle` returns `True` exactly when all four
duty-cycle files are writable; the fans written are the prefix up to the
first failure, and the marker file is updated exactly when the whole
operation succeeds. -/
theorem c3_set_fan_duty_cycle (canWrite : Int → Bool) (val : Int) :
    (fanutil_set_fan_duty_cycle canWrite val).ret
        = ([1, 2, 3, 4] : List Int).all (fun f => canWrite f)
  ∧ (fanutil_set_fan_duty_cycle canWrite val).fansWritten
        = ([1, 2, 3, 4] : List Int).takeWhile (fun f => canWrite f)
  ∧ (fanutil_set_fan_duty_cycle canWrite val).markerUpdated
        = (fanutil_set_fan_duty_cycle canWrite val).ret := by
  cases h1 : canWrite 1 <;> cases h2 : canWrite 2 <;> cases h3 : canWrite 3 <;>
    cases h4 : canWrite 4 <;>
    simp [fanutil_set_fan_duty_cycle, setFanDutyLoop, h1, h2, h3, h4]

/-- C4 counterexample: `FanUtil.get_fan_duty_cycle` on a readable duty
file whose first line is empty raises `ValueError` instead of returning a
defined unavailable sentinel. -/
theorem c4_get_fan_duty_cycle_raises :
    fanutil_get_fan_duty_cycle (some "") = .exn "ValueError"
    ∧ ∀ v, fanutil_get_fan_duty_cycle (some "") ≠ .ok v := by
  have he : fanutil_get_fan_duty_cycle (some "") = .exn "ValueError" := by decide
  refine ⟨he, fun v h => ?_⟩
  rw [he] at h
  exact PyResult.noConfusion h

/-- C4 amended: the read helpers return their sentinel on an unreadable
file, and `Thermal.__read_txt_file` and `FanUtil._get_fan_node_val` also
on an empty first line; `FanUtil.get_fan_duty_cycle` returns `False` only
for an unreadable file (an empty first line reaches `int(content)`). -/
theorem c4_read_unavailable_sentinels (rest : List (Option String))
    (raw : String) (envR : FanUtilEnv) (f : Int) (e : ThermalEnv)
    (hun : read_txt_file e.temp_input_files = none) :
    read_txt_file (none :: rest) = read_txt_file rest
  ∧ ((pyStrip raw).length > 0 →
      read_txt_file (some raw :: rest) = some (pyStrip raw))
  ∧ ((pyStrip raw).length = 0 →
      read_txt_file (some raw :: rest) = read_txt_file rest)
  ∧ read_txt_file [] = none
  ∧ thermal_get_temperature e = .ok 0
  ∧ (envR (f, 1) = none → fanutil_get_fan_fault envR f = .ok none)
  ∧ (envR (f, 3) = none → fanutil_get_fan_front_speed envR f = .ok none)
  ∧ (envR (f, 4) = none → fanutil_get_fan_rear_speed envR f = .ok none)
  ∧ (envR (f, 5) = none → fanutil_get_fan_present envR f = .ok none)
  ∧ (envR (f, 1) = some raw → rstrip raw = "" →
      fanutil_get_fan_fault envR f = .ok none)
  ∧ fanutil_get_fan_duty_cycle none = .ok (.inr false) := by
  refine ⟨rfl, ?_, ?_, rfl, ?_, ?_, ?_, ?_, ?_, ?_, rfl⟩
  · intro h
    simp [read_txt_file, h]
  · intro h
    simp [read_txt_file, h]
  · simp [thermal_get_temperature, hun]
  · intro h
    by_cases hf : f < 1 ∨ f > 4 <;>
      simp [fanutil_get_fan_fault, fanutil_get_fan_node_val,
            FAN_NODE_FAULT_IDX_OF_MAP, hf, h]
  · intro h
    by_cases hf : f < 1 ∨ f > 4 <;>
      simp [fanutil_get_fan_front_speed, fanutil_get_fan_node_val,
            FAN_NODE_FAULT_IDX_OF_MAP, FAN_NODE_FRONT_SPD_OF_MAP, hf, h]
  · intro h
    by_cases hf : f < 1 ∨ f > 4 <;>
      simp [fanutil_get_fan_rear_speed, fanutil_get_fan_node_val,
            FAN_NODE_FAULT_IDX_OF_MAP, FAN_NODE_REAR_SPD_OF_MAP, hf, h]
  · intro h
    by_cases hf : f < 1 ∨ f > 4 <;>
      simp [fanutil_get_fan_present, fanutil_get_fan_node_val,
            FAN_NODE_FAULT_IDX_OF_MAP, FAN_NODE_PRESENT_IDX_OF_MAP, hf, h]
  · intro h hstrip
    by_cases hf : f < 1 ∨ f > 4 <;>
      simp [fanutil_get_fan_fault, fanutil_get_fan_node_val,
            FAN_NODE_FAULT_IDX_OF_MAP, hf, h, hstrip]

/-- C4 amended witness: all-unreadable environments yield the sentinels. -/
theorem c4_read_unavailable_sentinels_witness :
    read_txt_file [] = none
    ∧ thermal_get_temperature ⟨[], []⟩ = .ok 0
    ∧ fanutil_get_fan_fault (fun _ => none) 1 = .ok none := by
  have h := c4_read_unavailable_sentinels [] "" (fun _ => none) 1 ⟨[], []⟩ rfl
  exact ⟨h.2.2.2.1, h.2.2.2.2.1, h.2.2.2.2.2.1 rfl⟩

/-- C5 counterexample: a PSU thermal sensor whose `psuN_present` file is
unreadable raises `TypeError` (from `int(None, 10)`) instead of returning
`False`. -/
theorem c5_psu_thermal_presence_raises :
    thermal_get_presence ⟨0, true, 0⟩ ⟨[], []⟩ = .exn "TypeError"
    ∧ ∀ b, thermal_get_presence ⟨0, true, 0⟩ ⟨[], []⟩ ≠ .ok b := by
  have he : thermal_get_presence ⟨0, true, 0⟩ ⟨[], []⟩ = .exn "TypeError" := by
    decide
  refine ⟨he, fun b h => ?_⟩
  rw [he] at h
  exact PyResult.noConfusion h

/-- C5 amended: fan trays and PSU fans report presence `True` exactly when
their presence file reads the integer 1 and `False` for any other integer
or an unreadable file; PSU thermals follow the same rule for a readable
file but raise `TypeError` when it is unreadable; `FanUtil.get_fan_present`
returns the raw integer of the present node, not a boolean. -/
theorem c5_presence_reads_one (e : FanEnv) (t : ThermalInst) (env : ThermalEnv)
    (v : Int) (s : String) :
    (e.tray_present = some v → fan_get_presence false e = decide (v = 1))
  ∧ (e.tray_present = none → fan_get_presence false e = false)
  ∧ (e.psu_present = some v → fan_get_presence true e = decide (v = 1))
  ∧ (e.psu_present = none → fan_get_presence true e = false)
  ∧ (t.is_cpu = false → t.is_psu = true →
      read_txt_file env.psu_present_files = some s → pyInt? s = some v →
      thermal_get_presence t env = .ok (decide (v = 1)))
  ∧ (t.is_cpu = false → t.is_psu = true →
      read_txt_file env.psu_present_files = none →
      thermal_get_presence t env = .exn "TypeError")
  ∧ (∀ (envR : FanUtilEnv) (f : Int),
      fanutil_get_fan_present envR f =
        fanutil_get_fan_node_val envR f FAN_NODE_PRESENT_IDX_OF_MAP) := by
  refine ⟨?_, ?_, ?_, ?_, ?_, ?_, fun envR f => rfl⟩
  · intro h
    simp [fan_get_presence, h]
  · intro h
    simp [fan_get_presence, h]
  · intro h
    simp [fan_get_presence, h]
  · intro h
    simp [fan_get_presence, h]
  · intro hc hp hr hv
    simp [thermal_get_presence, hc, hp, hr, hv]
  · intro hc hp hr
    simp [thermal_get_presence, hc, hp, hr]

/-- C5 amended witness: a present tray fan and an absent PSU fan. -/
theorem c5_presence_reads_one_witness :
    fan_get_presence false ⟨some 1, none, none, none, none, false, none, false⟩ = true
    ∧ fan_get_presence true ⟨none, none, none, none, none, false, none, false⟩ = false := by
  have h1 := (c5_presence_reads_one
    ⟨some 1, none, none, none, none, false, none, false⟩ ⟨0, false, 0⟩ ⟨[], []⟩
    1 "").1 rfl
  have h2 := (c5_presence_reads_one
    ⟨none, none, none, none, none, false, none, false⟩ ⟨0, false, 0⟩ ⟨[], []⟩
    1 "").2.2.2.1 rfl
  exact ⟨h1, h2⟩

/-- C6: CPU-attached thermal sensors (constructor index 10..18, not PSU)
report presence and status `True` unconditionally, whatever any file
contains or fails to contain. -/
theorem c6_cpu_thermal_always_present (t : ThermalInst) (e : ThermalEnv)
    (h10 : 10 ≤ t.index) (h18 : t.index ≤ 18) (hpsu : t.is_psu = false) :
    thermal_get_presence t e = .ok true ∧ thermal_get_status t e = .ok true := by
  have hc : t.is_cpu = true := by
    simp [ThermalInst.is_cpu, h10, h18]
  constructor <;> simp [thermal_get_presence, thermal_get_status, hc]

/-- C6 witness: CPU core sensor index 12 with no readable files. -/
theorem c6_cpu_thermal_always_present_witness :
    thermal_get_presence ⟨12, false, 0⟩ ⟨[], []⟩ = .ok true
    ∧ thermal_get_status ⟨12, false, 0⟩ ⟨[], []⟩ = .ok true :=
  c6_cpu_thermal_always_present ⟨12, false, 0⟩ ⟨[], []⟩ (by decide) (by decide) rfl

/-- C7: `Thermal.get_temperature` divides the value read from the temp
input file by 1000 and returns 0 when the read yields nothing (file
unreadable or its first line empty). -/
theorem c7_get_temperature (e : ThermalEnv) :
    (∀ (raw : String) (v : Int),
      read_txt_file e.temp_input_files = some raw →
      pyFloat? raw = some (v : ℚ) →
      thermal_get_temperature e = .ok ((v : ℚ) / 1000))
  ∧ (read_txt_file e.temp_input_files = none →
      thermal_get_temperature e = .ok 0) := by
  constructor
  · intro raw v hr hv
    simp [thermal_get_temperature, hr, hv]
  · intro hr
    simp [thermal_get_temperature, hr]

/-- C7 witness: 25000 millidegrees read 25 degrees; no file reads 0. -/
theorem c7_get_temperature_witness :
    thermal_get_temperature ⟨[], [some "25000"]⟩ = .ok ((25000 : ℚ) / 1000)
    ∧ thermal_get_temperature ⟨[], []⟩ = .ok 0 := by
  refine ⟨(c7_get_temperature _).1 "25000" 25000 (by decide) ?_,
    (c7_get_temperature _).2 rfl⟩
  simp [pyFloat?, pyStrip, decimalVal?, digitsVal]

/-- C8: names and parent-relative positions are pure functions of the
constructor indices: static ordered name tables selected by the index and
the 1-based index, with no environment involved. -/
theorem c8_name_position (t : ThermalInst) (tray fi psu : Nat)
    (hidx : t.index < 19) (hp : t.psu_index < 2) (hf : tray * 2 + fi < 8) :
    (t.is_psu = false → thermal_get_name t = THERMAL_NAME_LIST.get? t.index)
  ∧ (t.is_psu = true → thermal_get_name t = PSU_THERMAL_NAME_LIST.get? t.psu_index)
  ∧ (thermal_get_name t).isSome = true
  ∧ thermal_get_position_in_parent t = t.index + 1
  ∧ fan_get_name tray fi false psu = FAN_NAME_LIST.get? (tray * 2 + fi)
  ∧ (fan_get_name tray fi false psu).isSome = true
  ∧ fan_get_position_in_parent fi false psu = fi + 1
  ∧ fan_get_position_in_parent fi true psu = psu + 1 := by
  have hth : THERMAL_NAME_LIST.length = 19 := by decide
  have hpsuth : PSU_THERMAL_NAME_LIST.length = 2 := by decide
  have hfan : FAN_NAME_LIST.length = 8 := by decide
  refine ⟨fun h => by simp [thermal_get_name, h],
    fun h => by simp [thermal_get_name, h], ?_, rfl, ?_, ?_, ?_, ?_⟩
  · cases hps : t.is_psu <;>
      simp [thermal_get_name, hps, Option.isSome_iff_ne_none,
            List.get?_eq_none, hth, hpsuth] <;>
      omega
  · simp [fan_get_name]
  · simp [fan_get_name, Option.isSome_iff_ne_none, List.get?_eq_none, hfan]
    omega
  · simp [fan_get_position_in_parent]
  · simp [fan_get_position_in_parent]

/-- C8 witness: thermal sensor 3 and fan tray 2 rear fan. -/
theorem c8_name_position_witness :
    thermal_get_name ⟨3, false, 0⟩ = THERMAL_NAME_LIST.get? 3
    ∧ fan_get_name 1 1 false 0 = FAN_NAME_LIST.get? 3
    ∧ thermal_get_position_in_parent ⟨3, false, 0⟩ = 4 := by
  have h := c8_name_position ⟨3, false, 0⟩ 1 1 0 (by decide) (by decide) (by decide)
  exact ⟨h.1 rfl, h.2.2.2.2.1, h.2.2.2.1⟩

/-- C9: a non-PSU fan whose `get_presence()` is `False` makes
`Fan.get_target_speed` reach `return int(speed)` with `speed` never
assigned, raising `UnboundLocalError` instead of returning an integer. -/
theorem c9_absent_fan_target_speed_raises (e : FanEnv)
    (h : fan_get_presence false e = false) :
    fan_get_target_speed false e = .exn "UnboundLocalError" := by
  simp [fan_get_target_speed, h]

/-- C9 witness: a tray fan with an unreadable presence file. -/
theorem c9_absent_fan_target_speed_raises_witness :
    fan_get_target_speed false ⟨none, none, none, none, none, false, none, false⟩ =
      .exn "UnboundLocalError" :=
  c9_absent_fan_target_speed_raises
    ⟨none, none, none, none, none, false, none, false⟩ (by decide)

/-- C10: out-of-range fan or node numbers short-circuit to `None` before
any file access in `_get_fan_node_val` and `_set_fan_node_val`, and an
out-of-range fan number gives `None` from `get_fan_status` and from every
node getter. -/
theorem c10_out_of_range_returns_none (env : FanUtilEnv)
    (canWrite : Int × Int → Bool) (fan_num node_num val : Int) :
    ((fan_num < 1 ∨ fan_num > 4) ∨ (node_num < 1 ∨ node_num > 5) →
      fanutil_get_fan_node_val env fan_num node_num = .ok none
      ∧ fanutil_set_fan_node_val canWrite fan_num node_num val = none)
  ∧ ((fan_num < 1 ∨ fan_num > 4) →
      fanutil_get_fan_status env fan_num = .ok none
      ∧ fanutil_get_fan_fault env fan_num = .ok none
      ∧ fanutil_get_fan_present env fan_num = .ok none
      ∧ fanutil_get_fan_front_speed env fan_num = .ok none
      ∧ fanutil_get_fan_rear_speed env fan_num = .ok none) := by
  constructor
  · rintro (hf | hn)
    · constructor <;>
        simp [fanutil_get_fan_node_val, fanutil_set_fan_node_val, hf]
    · constructor <;>
        · by_cases hf : fan_num < 1 ∨ fan_num > 4 <;>
            simp [fanutil_get_fan_node_val, fanutil_set_fan_node_val,
                  FAN_NODE_FAULT_IDX_OF_MAP, hf, hn]
  · intro hf
    refine ⟨?_, ?_, ?_, ?_, ?_⟩ <;>
      simp [fanutil_get_fan_status, fanutil_get_fan_fault,
            fanutil_get_fan_present, fanutil_get_fan_front_speed,
            fanutil_get_fan_rear_speed, fanutil_get_fan_node_val, hf]

/-- C10 witness: fan number 0 and node number 9 are rejected. -/
theorem c10_out_of_range_returns_none_witness :
    fanutil_get_fan_node_val (fun _ => none) 0 9 = .ok none
    ∧ fanutil_set_fan_node_val (fun _ => true) 0 9 40 = none
    ∧ fanutil_get_fan_status (fun _ => none) 0 = .ok none := by
  have h := c10_out_of_range_returns_none (fun _ => none) (fun _ => true) 0 9 40
  exact ⟨(h.1 (Or.inl (by decide))).1, (h.1 (Or.inl (by decide))).2,
    (h.2 (by decide)).1⟩
